import Mathlib

/-!
Shallow embedding of the `@openconductor/mcp-sdk` core (error taxonomy,
invocation wrapper, metering/telemetry pipeline, billing gate, health check)
together with theorems settling the specification claims.

Source files embedded:
- `src/errors/codes.ts` and `src/errors/index.ts` (error taxonomy)
- `src/wrap.ts` (`wrapTool`, `sanitizeInput`, `createHealthCheck`)
- `src/telemetry/index.ts` (`Telemetry.trackToolCall`, `Telemetry.flush`)
- `src/payment.ts` (`checkBilling`, `requirePayment`)
-/

set_option autoImplicit false

namespace MCPSDK

/-- A universe of JSON-like JavaScript values, used for structured error
payloads and for tool inputs. -/
inductive JSVal where
  | str (s : String)
  | num (n : Int)
  | bool (b : Bool)
  | null
  | obj (fields : List (String × JSVal))

/-- JS string coercion `String(v)` for the values we model
(objects render as `"[object Object]"`). -/
def jsToString : JSVal → String
  | .str s => s
  | .num n => toString n
  | .bool b => if b then "true" else "false"
  | .null => "null"
  | .obj _ => "[object Object]"

/-- JS truthiness of an optional string: `undefined` and `""` are falsy,
every other string is truthy. -/
def strTruthy : Option String → Bool
  | some s => !s.isEmpty
  | none => false

/-- Embeds the spread `...(v && { key: v })` for an optional string `v`:
the field is present exactly when `v` is a truthy string. -/
def optStrField (key : String) (v : Option String) : List (String × JSVal) :=
  match v with
  | some s => if s.isEmpty then [] else [(key, JSVal.str s)]
  | none => []

/-- Embeds the spread `...(v && { key: v })` for an optional number `v`:
the field is present exactly when `v` is supplied and nonzero
(`0` is falsy in JS). -/
def optNumField (key : String) (v : Option Int) : List (String × JSVal) :=
  match v with
  | some n => if n = 0 then [] else [(key, JSVal.num n)]
  | none => []

/-! ## Error code registry (`src/errors/codes.ts`) -/

namespace ErrorCodes

def PARSE_ERROR : Int := -32700
def INVALID_REQUEST : Int := -32600
def METHOD_NOT_FOUND : Int := -32601
def INVALID_PARAMS : Int := -32602
def INTERNAL_ERROR : Int := -32603
def TOOL_NOT_FOUND : Int := -32001
def TOOL_EXECUTION_ERROR : Int := -32002
def RESOURCE_NOT_FOUND : Int := -32003
def AUTHENTICATION_ERROR : Int := -32004
def AUTHORIZATION_ERROR : Int := -32005
def RATE_LIMIT_ERROR : Int := -32006
def TIMEOUT_ERROR : Int := -32007
def VALIDATION_ERROR : Int := -32008
def DEPENDENCY_ERROR : Int := -32009
def CONFIGURATION_ERROR : Int := -32010
def PAYMENT_REQUIRED : Int := -32011
def INSUFFICIENT_CREDITS : Int := -32012
def SUBSCRIPTION_REQUIRED : Int := -32013

end ErrorCodes

/-! ## Error taxonomy (`src/errors/index.ts`)

An `MCPError` holds the constructor state `(code, message, data)`.
`data` is `none` when the constructor passed no data argument; it is
`some fields` when a data object (possibly empty) was passed. -/

structure MCPError where
  code : Int
  message : String
  data : Option (List (String × JSVal))

/-- `MCPError.toJSON`: `{ code, message, ...(this.data && { data }) }`.
A JS object is truthy even when empty, so the `data` key is present
exactly when a data object was supplied to the constructor. -/
def MCPError.toJSON (e : MCPError) : List (String × JSVal) :=
  [("code", JSVal.num e.code), ("message", JSVal.str e.message)] ++
    (match e.data with
     | some d => [("data", JSVal.obj d)]
     | none => [])

/-- Whether a JSON object (as a field list) carries a given key. -/
def hasField (key : String) (l : List (String × JSVal)) : Bool :=
  l.any fun kv => kv.1 == key

/-- `ValidationError(field, reason, value?)` — note the source passes
`ErrorCodes.INVALID_PARAMS`, not `ErrorCodes.VALIDATION_ERROR`.
The `value` field uses an explicit `value !== undefined` check, so it is
included whenever supplied (even if falsy). -/
def ValidationError (field reason : String) (value : Option JSVal) : MCPError :=
  { code := ErrorCodes.INVALID_PARAMS
    message := "Validation failed for '" ++ field ++ "': " ++ reason
    data := some ([("field", JSVal.str field), ("reason", JSVal.str reason)] ++
      (match value with
       | some v => [("value", v)]
       | none => [])) }

/-- `ToolNotFoundError(toolName)` -/
def ToolNotFoundError (toolName : String) : MCPError :=
  { code := ErrorCodes.TOOL_NOT_FOUND
    message := "Tool '" ++ toolName ++ "' not found"
    data := some [("tool", JSVal.str toolName)] }

/-- `ToolExecutionError(toolName, reason, cause?)`.
The `cause` argument is an `Error` object (truthy whenever present); the
data field stores `cause.message`, modelled here by `causeMessage`. -/
def ToolExecutionError (toolName reason : String) (causeMessage : Option String) : MCPError :=
  { code := ErrorCodes.TOOL_EXECUTION_ERROR
    message := "Tool '" ++ toolName ++ "' failed: " ++ reason
    data := some ([("tool", JSVal.str toolName), ("reason", JSVal.str reason)] ++
      (match causeMessage with
       | some m => [("cause", JSVal.str m)]
       | none => [])) }

/-- `ResourceNotFoundError(resourceUri)` -/
def ResourceNotFoundError (resourceUri : String) : MCPError :=
  { code := ErrorCodes.RESOURCE_NOT_FOUND
    message := "Resource '" ++ resourceUri ++ "' not found"
    data := some [("uri", JSVal.str resourceUri)] }

/-- `AuthenticationError(reason = 'Authentication required')` — the only
variant that passes no data object at all. -/
def AuthenticationError (reason : String) : MCPError :=
  { code := ErrorCodes.AUTHENTICATION_ERROR
    message := reason
    data := none }

/-- `AuthorizationError(action, resource?)` -/
def AuthorizationError (action : String) (resource : Option String) : MCPError :=
  { code := ErrorCodes.AUTHORIZATION_ERROR
    message :=
      match resource with
      | some r =>
        if r.isEmpty then "Not authorized to " ++ action
        else "Not authorized to " ++ action ++ " on '" ++ r ++ "'"
      | none => "Not authorized to " ++ action
    data := some ([("action", JSVal.str action)] ++ optStrField "resource" resource) }

/-- `RateLimitError(retryAfterMs?)` — the data object is always passed,
even when it ends up empty (`{...(retryAfterMs && { retryAfterMs })}`). -/
def RateLimitError (retryAfterMs : Option Int) : MCPError :=
  { code := ErrorCodes.RATE_LIMIT_ERROR
    message := "Rate limit exceeded"
    data := some (optNumField "retryAfterMs" retryAfterMs) }

/-- `TimeoutError(operation, timeoutMs)` -/
def TimeoutError (operation : String) (timeoutMs : Int) : MCPError :=
  { code := ErrorCodes.TIMEOUT_ERROR
    message := "Operation '" ++ operation ++ "' timed out after " ++ toString timeoutMs ++ "ms"
    data := some [("operation", JSVal.str operation), ("timeoutMs", JSVal.num timeoutMs)] }

/-- `DependencyError(dependency, reason)` -/
def DependencyError (dependency reason : String) : MCPError :=
  { code := ErrorCodes.DEPENDENCY_ERROR
    message := "Dependency '" ++ dependency ++ "' unavailable: " ++ reason
    data := some [("dependency", JSVal.str dependency), ("reason", JSVal.str reason)] }

/-- `ConfigurationError(setting, reason)` -/
def ConfigurationError (setting reason : String) : MCPError :=
  { code := ErrorCodes.CONFIGURATION_ERROR
    message := "Invalid configuration '" ++ setting ++ "': " ++ reason
    data := some [("setting", JSVal.str setting), ("reason", JSVal.str reason)] }

/-- `PaymentRequiredError(toolName, { upgradeUrl?, priceId? })` -/
def PaymentRequiredError (toolName : String) (upgradeUrl priceId : Option String) : MCPError :=
  { code := ErrorCodes.PAYMENT_REQUIRED
    message := "Payment required to use '" ++ toolName ++ "'"
    data := some ([("tool", JSVal.str toolName)] ++
      optStrField "upgradeUrl" upgradeUrl ++ optStrField "priceId" priceId) }

/-- `InsufficientCreditsError(required, available, { purchaseUrl? })` -/
def InsufficientCreditsError (required available : Int) (purchaseUrl : Option String) : MCPError :=
  { code := ErrorCodes.INSUFFICIENT_CREDITS
    message := "Insufficient credits: need " ++ toString required ++ ", have " ++ toString available
    data := some ([("required", JSVal.num required), ("available", JSVal.num available)] ++
      optStrField "purchaseUrl" purchaseUrl) }

/-- `SubscriptionRequiredError(requiredTier, currentTier?, { upgradeUrl? })` -/
def SubscriptionRequiredError (requiredTier : String) (currentTier upgradeUrl : Option String) :
    MCPError :=
  { code := ErrorCodes.SUBSCRIPTION_REQUIRED
    message :=
      if strTruthy currentTier then
        "Subscription '" ++ requiredTier ++ "' required (current: '" ++
          (currentTier.getD "") ++ "')"
      else "Subscription '" ++ requiredTier ++ "' required"
    data := some ([("requiredTier", JSVal.str requiredTier)] ++
      optStrField "currentTier" currentTier ++ optStrField "upgradeUrl" upgradeUrl) }

/-! ## Invocation wrapper (`src/wrap.ts`, `wrapTool`)

The wrapped handler is modelled by a completion time (milliseconds after
invocation) and an outcome (a value, or a thrown JS value). `Promise.race`
settles with whichever of the handler and the timeout timer settles first. -/

/-- A value thrown by a handler: a taxonomy error (which is an `Error`),
a plain `Error` carrying a message, or any other JS value. -/
inductive Thrown where
  | mcp (e : MCPError)
  | err (message : String)
  | other (v : JSVal)

/-- `error instanceof Error ? error.message : String(error)` -/
def thrownMessage : Thrown → String
  | .mcp e => e.message
  | .err m => m
  | .other v => jsToString v

/-- Outcome of running a handler: it resolved with a value or threw. -/
inductive HandlerOutcome (α : Type) where
  | ok (v : α)
  | thrown (t : Thrown)

/-- One run of a handler: when it settles and how. -/
structure HandlerRun (α : Type) where
  time : Nat
  outcome : HandlerOutcome α

/-- The options of `wrapTool` that affect its result value
(`logger` and `telemetry` only produce effects on collaborators). -/
structure WrapToolOptions where
  name : String
  timeout : Option Nat

/-- `timeout = 30000` default. -/
def WrapToolOptions.effectiveTimeout (o : WrapToolOptions) : Nat :=
  o.timeout.getD 30000

/-- `Promise.race([Promise.resolve(handler(input, ctx)), timeoutPromise])`:
the timer rejects with `TimeoutError(name, timeout)` at `timeout` ms; the
handler settles at `run.time`. The earlier settlement wins (the handler
wins a tie, since it would already be settled when the timer fires). -/
def race {α : Type} (name : String) (timeout : Nat) (run : HandlerRun α) : HandlerOutcome α :=
  if timeout < run.time then
    .thrown (.mcp (TimeoutError name (timeout : Int)))
  else run.outcome

/-- The whole result path of the function returned by `wrapTool`: race the
handler against the timer, then in the `catch` block rethrow `MCPError`s
unchanged and wrap anything else in a `ToolExecutionError` whose reason is
the thrown value's message and whose cause is present exactly when the
thrown value is an `Error`. -/
def wrapToolRun {α : Type} (opts : WrapToolOptions) (run : HandlerRun α) : Except Thrown α :=
  match race opts.name opts.effectiveTimeout run with
  | .ok v => .ok v
  | .thrown t =>
    match t with
    | .mcp e => .error (.mcp e)
    | .err m => .error (.mcp (ToolExecutionError opts.name m (some m)))
    | .other v => .error (.mcp (ToolExecutionError opts.name (jsToString v) none))

/-! ## Input sanitization (`src/wrap.ts`, `sanitizeInput`) -/

/-- Does `needle` occur at the head of `hay`? -/
def charsMatchAt : List Char → List Char → Bool
  | [], _ => true
  | _ :: _, [] => false
  | a :: as, b :: bs => a == b && charsMatchAt as bs

/-- Does `needle` occur anywhere inside `hay`? -/
def charsContain (needle hay : List Char) : Bool :=
  charsMatchAt needle hay ||
    (match hay with
     | [] => false
     | _ :: t => charsContain needle t)

/-- JS `haystack.includes(needle)` on strings. -/
def containsSubstr (needle hay : String) : Bool :=
  charsContain needle.toList hay.toList

/-- `key.toLowerCase()`, written over the character list (ASCII lowering,
which covers the ASCII sensitive-key needles). -/
def lowerString (s : String) : String :=
  String.mk (s.toList.map Char.toLower)

def sensitiveKeys : List String :=
  ["password", "token", "secret", "key", "auth", "credential"]

/-- `sensitiveKeys.some(k => key.toLowerCase().includes(k))` -/
def isSensitiveKey (key : String) : Bool :=
  sensitiveKeys.any fun k => containsSubstr k (lowerString key)

/-- One entry of the sanitized object. -/
def redactPair (kv : String × JSVal) : String × JSVal :=
  if isSensitiveKey kv.1 then (kv.1, JSVal.str "[REDACTED]") else kv

def sanitizedFields (fields : List (String × JSVal)) : List (String × JSVal) :=
  fields.map redactPair

/-- `sanitizeInput`: non-objects (and `null`) are returned unchanged;
objects get each top-level entry redacted by key name, with no recursion
into nested object values. -/
def sanitizeInput : JSVal → JSVal
  | .obj fields => .obj (sanitizedFields fields)
  | v => v

/-! ## Health check (`src/wrap.ts`, `createHealthCheck`) -/

/-- The declared status union `'healthy' | 'degraded' | 'unhealthy'`. -/
inductive HealthStatus where
  | healthy
  | degraded
  | unhealthy
deriving DecidableEq

/-- What a configured check function does when awaited. -/
inductive CheckOutcome where
  | ok (b : Bool)
  | throws

/-- `try { checks[name] = await check() } catch { checks[name] = false }` -/
def checkResult : CheckOutcome → Bool
  | .ok b => b
  | .throws => false

/-- The loop over `Object.entries(info.checks)`: record each check's result
(a throwing check records `false` and the loop continues), and conjoin
`allHealthy`. -/
def runHealthChecks : List (String × CheckOutcome) → List (String × Bool) × Bool
  | [] => ([], true)
  | (n, c) :: rest =>
    let r := checkResult c
    let (recs, allRest) := runHealthChecks rest
    ((n, r) :: recs, r && allRest)

/-- The response of the function returned by `createHealthCheck`:
`status: allHealthy ? 'healthy' : 'degraded'` plus the recorded checks. -/
def createHealthCheckRun (checkList : List (String × CheckOutcome)) :
    HealthStatus × List (String × Bool) :=
  let (checks, allHealthy) := runHealthChecks checkList
  ((if allHealthy then .healthy else .degraded), checks)

/-! ## Metering pipeline (`src/telemetry/index.ts`, class `Telemetry`)

The buffer is the only state the claims concern. A flush is modelled as a
state transition parametrized by the events appended concurrently while the
outbound request is in flight (`during`) and by whether the transport
attempt succeeded (`transportOk`). The second component of each result is
`true` when the operation's promise rejects to its caller. -/

structure ToolMetric where
  tool : String
  duration : Int
  success : Bool
  error : Option String
  timestamp : String
deriving DecidableEq

/-- Metric construction in `trackToolCall`: `...(error && { error })` keeps
the error field only when the supplied message is a truthy string. -/
def mkToolMetric (tool : String) (duration : Int) (success : Bool)
    (error : Option String) (timestamp : String) : ToolMetric :=
  { tool, duration, success
    error :=
      match error with
      | some s => if s.isEmpty then none else some s
      | none => none
    timestamp }

/-- `Telemetry.flush()`: empty buffer returns immediately; otherwise the
buffer is snapshotted and cleared, one delivery attempt happens (during
which `during` events get appended to the now-empty buffer), and on
failure the snapshot is `unshift`ed back to the front of the buffer and
the error is rethrown (the returned promise rejects). -/
def Telemetry.flushRun (buffer during : List ToolMetric) (transportOk : Bool) :
    List ToolMetric × Bool :=
  if buffer.isEmpty then (buffer, false)
  else if transportOk then (during, false)
  else (buffer ++ during, true)

/-- An internally triggered flush, `this.flush().catch(this.handleError.bind(this))`,
as used by the size trigger in `trackToolCall`, the periodic timer set up in
the constructor, and `shutdown()`: the rejection is consumed by the attached
internal error handler, so nothing propagates. -/
def Telemetry.flushAbsorbed (buffer during : List ToolMetric) (transportOk : Bool) :
    List ToolMetric × Bool :=
  ((Telemetry.flushRun buffer during transportOk).1, false)

/-- `Telemetry.trackToolCall(tool, duration, success, error?)`: push one
metric, then fire an absorbed flush when the buffer has reached
`batchSize`. The function returns `void` and never raises: the only
fallible step is the auto-flush, whose rejection is caught internally. -/
def Telemetry.trackToolCallRun (buffer : List ToolMetric) (batchSize : Nat)
    (tool : String) (duration : Int) (success : Bool) (error : Option String)
    (timestamp : String) (transportOk : Bool) : List ToolMetric × Bool :=
  let buf := buffer ++ [mkToolMetric tool duration success error timestamp]
  if batchSize ≤ buf.length then Telemetry.flushAbsorbed buf [] transportOk
  else (buf, false)

/-! ## Billing gate (`src/payment.ts`) -/

structure BillingStatus where
  allowed : Bool
  credits : Option Int
  tier : Option String
  reason : Option String
  actionUrl : Option String

/-- Payment configuration after `initPayment` normalization
(`apiUrl` defaulted, `testMode` defaulted to `false`). -/
structure PaymentConfig where
  apiKey : String
  apiUrl : String
  upgradeUrl : Option String
  testMode : Bool

/-- `MOCK_BILLING_STATUS` from `src/demo/mock-data.ts`. -/
def MOCK_BILLING_STATUS : BillingStatus :=
  { allowed := true
    credits := some 9999
    tier := some "demo"
    reason := none
    actionUrl := some "https://openconductor.ai/pricing" }

/-- What the outbound `fetch` of the billing check did. -/
inductive FetchOutcome where
  | success (body : BillingStatus)
  | httpError (status : Int) (body : String)
  | netError (message : String)

/-- A fetch outcome that is a delivery failure (non-2xx or exception). -/
def FetchOutcome.failed : FetchOutcome → Bool
  | .success _ => false
  | .httpError _ _ => true
  | .netError _ => true

/-- `checkBilling({userId, requirement, toolName})`: demo mode returns the
mock status; a missing config throws `ConfigurationError`; test mode
always allows; otherwise the decision follows the fetch outcome, with both
failure shapes mapping to `allowed: false` and `actionUrl: config.upgradeUrl`. -/
def checkBilling (demoMode : Bool) (config : Option PaymentConfig)
    (outcome : FetchOutcome) : Except MCPError BillingStatus :=
  if demoMode then .ok MOCK_BILLING_STATUS
  else
    match config with
    | none => .error (ConfigurationError "payment"
        "Payment not initialized. Call initPayment() first.")
    | some cfg =>
      if cfg.testMode then
        .ok { allowed := true, credits := some 9999, tier := some "test"
              reason := none, actionUrl := none }
      else
        match outcome with
        | .success body => .ok body
        | .httpError _ _ =>
          .ok { allowed := false, credits := none, tier := none
                reason := some "Billing service unavailable"
                actionUrl := cfg.upgradeUrl }
        | .netError _ =>
          .ok { allowed := false, credits := none, tier := none
                reason := some "Unable to verify billing status"
                actionUrl := cfg.upgradeUrl }

/-- The tagged form of the structural union
`CreditRequirement | SubscriptionRequirement | StripeRequirement`;
`requirePayment` dispatches on the `credits` / `tier` / `priceId` key. -/
inductive PaymentRequirement where
  | credits (credits : Int)
  | subscription (tier : String) (allowedTiers : Option (List String))
  | stripe (priceId : String)

/-- The denial raised by `requirePayment` for a disallowing decision:
credits → `InsufficientCreditsError(requirement.credits, status.credits ?? 0,
{purchaseUrl: status.actionUrl})`; subscription →
`SubscriptionRequiredError(requirement.tier, status.tier,
{upgradeUrl: status.actionUrl})`; otherwise a generic
`PaymentRequiredError` carrying the stripe price id. -/
def requirePaymentDenial (toolName : String) (requirement : PaymentRequirement)
    (status : BillingStatus) : MCPError :=
  match requirement with
  | .credits n => InsufficientCreditsError n (status.credits.getD 0) status.actionUrl
  | .subscription tier _ => SubscriptionRequiredError tier status.tier status.actionUrl
  | .stripe priceId => PaymentRequiredError toolName status.actionUrl (some priceId)

/-- The result of the function returned by `requirePayment(requirement)`:
a falsy user id raises `PaymentRequiredError` before any network call; a
billing-check rejection propagates; a disallowing decision raises the
requirement-specific denial; only an allowing decision runs the handler. -/
def requirePaymentRun {α : Type} (toolName : String) (cfgUpgradeUrl : Option String)
    (requirement : PaymentRequirement) (userId : Option String)
    (billing : Except MCPError BillingStatus) (handlerResult : α) : Except MCPError α :=
  if strTruthy userId = false then
    .error (PaymentRequiredError toolName cfgUpgradeUrl none)
  else
    match billing with
    | .error e => .error e
    | .ok status =>
      if status.allowed then .ok handlerResult
      else .error (requirePaymentDenial toolName requirement status)

/-! ## Fixed billing configurations used by concrete theorems -/

/-- A production payment configuration with no upgrade URL configured
(`initPayment({apiKey})` leaves `upgradeUrl` undefined). -/
def cfgNoUpgrade : PaymentConfig :=
  { apiKey := "sk_live_1"
    apiUrl := "https://api.openconductor.ai"
    upgradeUrl := none
    testMode := false }

/-- A production payment configuration with an upgrade URL configured. -/
def cfgWithUpgrade : PaymentConfig :=
  { apiKey := "sk_live_2"
    apiUrl := "https://api.openconductor.ai"
    upgradeUrl := some "https://myapp.com/upgrade"
    testMode := false }

/-! # Theorems for the claims -/

/-- C1 (counterexample): the validation-failed variant does **not** carry
`VALIDATION_ERROR = -32008`: `ValidationError` is constructed with
`ErrorCodes.INVALID_PARAMS`, so its code is `-32602 ≠ -32008`. -/
theorem C1_counterexample :
    (ValidationError "email" "Invalid format" none).code ≠ ErrorCodes.VALIDATION_ERROR := by
  decide

/-- C1 (amended): every variant of the MCPError taxonomy carries the fixed
registry code its constructor names, independent of message content —
except that `ValidationError` carries `INVALID_PARAMS = -32602` (the
registry entry `VALIDATION_ERROR = -32008` exists but is unused); the
timed-out variant carries `TIMEOUT_ERROR = -32007` and the
insufficient-credits variant carries `INSUFFICIENT_CREDITS = -32012`. -/
theorem C1_error_codes :
    (∀ f r v, (ValidationError f r v).code = ErrorCodes.INVALID_PARAMS) ∧
    (∀ t, (ToolNotFoundError t).code = ErrorCodes.TOOL_NOT_FOUND) ∧
    (∀ t r c, (ToolExecutionError t r c).code = ErrorCodes.TOOL_EXECUTION_ERROR) ∧
    (∀ u, (ResourceNotFoundError u).code = ErrorCodes.RESOURCE_NOT_FOUND) ∧
    (∀ r, (AuthenticationError r).code = ErrorCodes.AUTHENTICATION_ERROR) ∧
    (∀ a r, (AuthorizationError a r).code = ErrorCodes.AUTHORIZATION_ERROR) ∧
    (∀ r, (RateLimitError r).code = ErrorCodes.RATE_LIMIT_ERROR) ∧
    (∀ o t, (TimeoutError o t).code = ErrorCodes.TIMEOUT_ERROR) ∧
    (∀ d r, (DependencyError d r).code = ErrorCodes.DEPENDENCY_ERROR) ∧
    (∀ s r, (ConfigurationError s r).code = ErrorCodes.CONFIGURATION_ERROR) ∧
    (∀ t u p, (PaymentRequiredError t u p).code = ErrorCodes.PAYMENT_REQUIRED) ∧
    (∀ r a u, (InsufficientCreditsError r a u).code = ErrorCodes.INSUFFICIENT_CREDITS) ∧
    (∀ t c u, (SubscriptionRequiredError t c u).code = ErrorCodes.SUBSCRIPTION_REQUIRED) ∧
    ErrorCodes.INVALID_PARAMS = -32602 ∧
    ErrorCodes.VALIDATION_ERROR = -32008 ∧
    ErrorCodes.TIMEOUT_ERROR = -32007 ∧
    ErrorCodes.INSUFFICIENT_CREDITS = -32012 :=
  ⟨fun _ _ _ => rfl, fun _ => rfl, fun _ _ _ => rfl, fun _ => rfl, fun _ => rfl,
   fun _ _ => rfl, fun _ => rfl, fun _ _ => rfl, fun _ _ => rfl, fun _ _ => rfl,
   fun _ _ _ => rfl, fun _ _ _ => rfl, fun _ _ _ => rfl, rfl, rfl, rfl, rfl⟩

/-- C2 (counterexample): `RateLimitError` constructed with no
`retryAfterMs` argument still passes an (empty) data object, and since an
empty JS object is truthy, `toJSON()` includes the `data` key — the claim
says the `data` key is omitted when the payload is empty. -/
theorem C2_counterexample :
    hasField "data" (RateLimitError none).toJSON = true ∧
    (RateLimitError none).data = some [] := ⟨rfl, rfl⟩

/-- C2 (amended): `toJSON()` returns exactly `{code, message, data?}`,
where the `data` key is present exactly when a payload object was supplied
to the constructor — an empty payload object is still included (as `{}`):
every variant except `AuthenticationError` supplies a payload, and
`RateLimitError` with no argument supplies the empty payload. -/
theorem C2_toJSON_shape :
    (∀ e : MCPError, hasField "data" e.toJSON = e.data.isSome) ∧
    (∀ e : MCPError, e.toJSON.map Prod.fst =
      ["code", "message"] ++ (if e.data.isSome then ["data"] else [])) ∧
    (∀ e : MCPError, ∀ d, e.data = some d →
      ("data", JSVal.obj d) ∈ e.toJSON) ∧
    (∀ f r v, (ValidationError f r v).data.isSome = true) ∧
    (∀ t, (ToolNotFoundError t).data.isSome = true) ∧
    (∀ t r c, (ToolExecutionError t r c).data.isSome = true) ∧
    (∀ u, (ResourceNotFoundError u).data.isSome = true) ∧
    (∀ r, (AuthenticationError r).data = none) ∧
    (∀ a r, (AuthorizationError a r).data.isSome = true) ∧
    (∀ r, (RateLimitError r).data.isSome = true) ∧
    (∀ o t, (TimeoutError o t).data.isSome = true) ∧
    (∀ d r, (DependencyError d r).data.isSome = true) ∧
    (∀ s r, (ConfigurationError s r).data.isSome = true) ∧
    (∀ t u p, (PaymentRequiredError t u p).data.isSome = true) ∧
    (∀ r a u, (InsufficientCreditsError r a u).data.isSome = true) ∧
    (∀ t c u, (SubscriptionRequiredError t c u).data.isSome = true) ∧
    (RateLimitError none).data = some [] := by
  refine ⟨?_, ?_, ?_, ?_⟩
  · intro e
    rcases e with ⟨c, m, d⟩
    cases d <;> rfl
  · intro e
    rcases e with ⟨c, m, d⟩
    cases d <;> rfl
  · intro e d h
    rcases e with ⟨c, m, d0⟩
    cases d0 with
    | none => exact absurd h (by simp)
    | some d1 =>
      obtain rfl : d1 = d := by simpa using h
      simp [MCPError.toJSON]
  · exact ⟨fun _ _ _ => rfl, fun _ => rfl, fun _ _ _ => rfl, fun _ => rfl, fun _ => rfl,
      fun _ _ => rfl, fun _ => rfl, fun _ _ => rfl, fun _ _ => rfl, fun _ _ => rfl,
      fun _ _ _ => rfl, fun _ _ _ => rfl, fun _ _ _ => rfl, rfl⟩

/-- C2 (witness): the data-inclusion implication of `C2_toJSON_shape`
evaluated on a concrete error with a supplied payload. -/
theorem C2_witness :
    ("data", JSVal.obj [("tool", JSVal.str "search")]) ∈ (ToolNotFoundError "search").toJSON :=
  C2_toJSON_shape.2.2.1 (ToolNotFoundError "search") [("tool", JSVal.str "search")] rfl

/-- C3: every error propagating out of the function returned by `wrapTool`
is a member of the MCPError hierarchy: a raced `MCPError` (thrown by the
handler, or the timer's `TimeoutError`) is rethrown unchanged, any other
thrown value is wrapped in a `ToolExecutionError` that preserves the
original message as reason and carries a cause exactly when the thrown
value was an `Error`; a handler throwing a plain error with message
"boom" within the timeout yields a tool-execution-failed error whose data
carries the tool name and reason "boom". -/
theorem C3_wrap_normalizes {α : Type} (opts : WrapToolOptions) (run : HandlerRun α) :
    (∀ t, wrapToolRun opts run = .error t → ∃ e, t = Thrown.mcp e) ∧
    (∀ e, race opts.name opts.effectiveTimeout run = .thrown (.mcp e) →
      wrapToolRun opts run = .error (.mcp e)) ∧
    (∀ m, race opts.name opts.effectiveTimeout run = .thrown (.err m) →
      wrapToolRun opts run = .error (.mcp (ToolExecutionError opts.name m (some m)))) ∧
    (∀ v, race opts.name opts.effectiveTimeout run = .thrown (.other v) →
      wrapToolRun opts run = .error (.mcp (ToolExecutionError opts.name (jsToString v) none))) ∧
    (∀ m, run.outcome = .thrown (.err m) → run.time ≤ opts.effectiveTimeout →
      wrapToolRun opts run = .error (.mcp (ToolExecutionError opts.name m (some m))) ∧
      (ToolExecutionError opts.name m (some m)).data =
        some [("tool", JSVal.str opts.name), ("reason", JSVal.str m), ("cause", JSVal.str m)] ∧
      (ToolExecutionError opts.name m (some m)).code = ErrorCodes.TOOL_EXECUTION_ERROR) := by
  refine ⟨?_, ?_, ?_, ?_, ?_⟩
  · intro t h
    cases hr : race opts.name opts.effectiveTimeout run with
    | ok v => simp [wrapToolRun, hr] at h
    | thrown t0 =>
      cases t0 with
      | mcp e =>
        simp [wrapToolRun, hr] at h
        exact ⟨_, h.symm⟩
      | err m =>
        simp [wrapToolRun, hr] at h
        exact ⟨_, h.symm⟩
      | other v =>
        simp [wrapToolRun, hr] at h
        exact ⟨_, h.symm⟩
  · intro e h
    unfold wrapToolRun
    rw [h]
  · intro m h
    unfold wrapToolRun
    rw [h]
  · intro v h
    unfold wrapToolRun
    rw [h]
  · intro m h1 h2
    refine ⟨?_, rfl, rfl⟩
    unfold wrapToolRun race
    rw [if_neg (by omega), h1]

/-- C3 (witness): a handler that throws a plain `Error("boom")` after 5 ms
under the default 30000 ms timeout propagates a `ToolExecutionError`. -/
theorem C3_witness :
    @wrapToolRun Nat ⟨"my-tool", none⟩ ⟨5, HandlerOutcome.thrown (Thrown.err "boom")⟩ =
      Except.error (Thrown.mcp (ToolExecutionError "my-tool" "boom" (some "boom"))) ∧
    (ToolExecutionError "my-tool" "boom" (some "boom")).data =
      some [("tool", JSVal.str "my-tool"), ("reason", JSVal.str "boom"),
            ("cause", JSVal.str "boom")] :=
  ⟨((C3_wrap_normalizes (α := Nat) ⟨"my-tool", none⟩
      ⟨5, HandlerOutcome.thrown (Thrown.err "boom")⟩).2.2.2.2 "boom" rfl (by decide)).1,
   ((C3_wrap_normalizes (α := Nat) ⟨"my-tool", none⟩
      ⟨5, HandlerOutcome.thrown (Thrown.err "boom")⟩).2.2.2.2 "boom" rfl (by decide)).2.1⟩

/-- C4: when the handler settles strictly later than the configured
timeout (default 30000 ms), the wrapped call rejects with
`TimeoutError(name, timeout)`, whose data carries the operation name and
the configured timeout value; the handler's own eventual outcome does not
change this result (the wrapped result is the same for every handler
outcome at that completion time). -/
theorem C4_timeout_outcome {α : Type} (opts : WrapToolOptions) (run : HandlerRun α)
    (h : opts.effectiveTimeout < run.time) :
    wrapToolRun opts run =
      .error (.mcp (TimeoutError opts.name (opts.effectiveTimeout : Int))) ∧
    (TimeoutError opts.name (opts.effectiveTimeout : Int)).data =
      some [("operation", JSVal.str opts.name),
            ("timeoutMs", JSVal.num (opts.effectiveTimeout : Int))] ∧
    (TimeoutError opts.name (opts.effectiveTimeout : Int)).code = ErrorCodes.TIMEOUT_ERROR ∧
    (∀ o : HandlerOutcome α,
      wrapToolRun opts { time := run.time, outcome := o } = wrapToolRun opts run) := by
  refine ⟨?_, rfl, rfl, ?_⟩
  · unfold wrapToolRun race
    rw [if_pos h]
  · intro o
    unfold wrapToolRun race
    rw [if_pos h, if_pos h]

/-- C4 (witness): `timeout: 50` with a handler resolving at 200 ms yields
the timed-out rejection carrying operation `"slow"` and timeout `50`,
for either eventual handler outcome. -/
theorem C4_witness :
    wrapToolRun ⟨"slow", some 50⟩ ⟨200, HandlerOutcome.ok (0 : Nat)⟩ =
      Except.error (Thrown.mcp (TimeoutError "slow" 50)) ∧
    wrapToolRun ⟨"slow", some 50⟩
        ⟨200, HandlerOutcome.thrown (Thrown.err "late failure")⟩ =
      wrapToolRun ⟨"slow", some 50⟩ ⟨200, HandlerOutcome.ok (0 : Nat)⟩ :=
  ⟨(C4_timeout_outcome ⟨"slow", some 50⟩ ⟨200, HandlerOutcome.ok (0 : Nat)⟩ (by decide)).1,
   (C4_timeout_outcome ⟨"slow", some 50⟩ ⟨200, HandlerOutcome.ok (0 : Nat)⟩
      (by decide)).2.2.2 (HandlerOutcome.thrown (Thrown.err "late failure"))⟩

/-- C5: a flush of a non-empty buffer whose transport attempt fails
restores the snapshot to the front of the buffer — the resulting buffer is
the original events, in their original order, followed by whatever was
appended while the attempt was in flight; a flush of an empty buffer is a
no-op for every transport outcome. -/
theorem C5_flush_failure_preserves (buffer during : List ToolMetric) (h : buffer ≠ []) :
    Telemetry.flushRun buffer during false = (buffer ++ during, true) ∧
    (∀ d tOk, Telemetry.flushRun [] d tOk = ([], false)) := by
  constructor
  · cases buffer with
    | nil => exact absurd rfl h
    | cons m rest => rfl
  · intro d tOk
    rfl

/-- C5 (witness): one tracked event, a failing flush with one concurrent
append: both events survive, snapshot first. -/
theorem C5_witness :
    Telemetry.flushRun [mkToolMetric "tool-1" 100 true none "t1"]
        [mkToolMetric "tool-2" 200 true none "t2"] false =
      ([mkToolMetric "tool-1" 100 true none "t1",
        mkToolMetric "tool-2" 200 true none "t2"], true) :=
  (C5_flush_failure_preserves [mkToolMetric "tool-1" 100 true none "t1"]
    [mkToolMetric "tool-2" 200 true none "t2"] (by decide)).1

/-- C6 (counterexample): `Telemetry.flush()` rethrows the transport error
after re-buffering, so an explicitly invoked `flush()` with a failing
transport rejects to the pipeline's caller — contradicting the claim that
every flush failure is absorbed internally. -/
theorem C6_counterexample :
    (Telemetry.flushRun [mkToolMetric "my-tool" 150 true none "2025-01-01T00:00:00.000Z"]
      [] false).2 = true := rfl

/-- C6 (amended): `trackToolCall` never raises to its caller (the
size-triggered auto-flush has the internal error handler attached), and
the internally triggered flushes (size, timer, shutdown — all of the form
`flush().catch(handleError)`) absorb every transport failure; but a
directly invoked `flush()` rejects with the transport error after
restoring the snapshot to the buffer. -/
theorem C6_absorption (buffer during : List ToolMetric) (batchSize : Nat)
    (tool : String) (duration : Int) (success : Bool) (error : Option String)
    (timestamp : String) (transportOk : Bool) :
    (Telemetry.trackToolCallRun buffer batchSize tool duration success error
      timestamp transportOk).2 = false ∧
    (Telemetry.flushAbsorbed buffer during transportOk).2 = false ∧
    (buffer ≠ [] → Telemetry.flushRun buffer during false = (buffer ++ during, true)) := by
  refine ⟨?_, rfl, ?_⟩
  · simp only [Telemetry.trackToolCallRun, Telemetry.flushAbsorbed]
    split <;> rfl
  · intro h
    exact (C5_flush_failure_preserves buffer during h).1

/-- C6 (witness): a buffer-filling `trackToolCall` with a failing
transport raises nothing, while the same failure on a direct `flush()`
call rejects. -/
theorem C6_witness :
    (Telemetry.trackToolCallRun [] 1 "tool-a" 42 false (some "oops") "t3" false).2 = false ∧
    Telemetry.flushRun [mkToolMetric "tool-a" 42 false (some "oops") "t3"] [] false =
      ([mkToolMetric "tool-a" 42 false (some "oops") "t3"], true) :=
  ⟨(C6_absorption [] [] 1 "tool-a" 42 false (some "oops") "t3" false).1,
   (C6_absorption [mkToolMetric "tool-a" 42 false (some "oops") "t3"] [] 1 "tool-a" 42 false
      (some "oops") "t3" false).2.2 (by decide)⟩

/-- C7 (counterexample): with a configuration in which no upgrade URL was
set (`initPayment` leaves `upgradeUrl` undefined unless supplied), a
billing check whose outbound call fails returns a decision whose
`actionUrl` is **not** populated — the claim's "action URL populated"
fails, although the decision still fails closed with a reason. -/
theorem C7_counterexample :
    checkBilling false (some cfgNoUpgrade) (FetchOutcome.netError "ECONNREFUSED") =
      Except.ok { allowed := false, credits := none, tier := none
                  reason := some "Unable to verify billing status"
                  actionUrl := none } := rfl

/-- C7 (amended): every billing check whose outbound call fails (non-2xx
response or network exception) returns a decision with `allowed = false`
(fail closed, never fail open) and a denial reason populated, and with
`actionUrl` set to the configured upgrade URL — populated exactly when an
upgrade URL was configured; `requirePayment` then raises the
requirement-specific denial error instead of executing the handler. -/
theorem C7_fail_closed (cfg : PaymentConfig) (hTest : cfg.testMode = false) :
    (∀ s b, checkBilling false (some cfg) (.httpError s b) =
      Except.ok { allowed := false, credits := none, tier := none
                  reason := some "Billing service unavailable"
                  actionUrl := cfg.upgradeUrl }) ∧
    (∀ m, checkBilling false (some cfg) (.netError m) =
      Except.ok { allowed := false, credits := none, tier := none
                  reason := some "Unable to verify billing status"
                  actionUrl := cfg.upgradeUrl }) ∧
    (∀ {α : Type} (toolName : String) (req : PaymentRequirement)
       (userId : Option String) (status : BillingStatus) (hr : α),
       strTruthy userId = true → status.allowed = false →
       requirePaymentRun toolName cfg.upgradeUrl req userId (Except.ok status) hr =
         Except.error (requirePaymentDenial toolName req status)) := by
  refine ⟨?_, ?_, ?_⟩
  · intro s b
    simp [checkBilling, hTest]
  · intro m
    simp [checkBilling, hTest]
  · intro α toolName req userId status hr hUser hDeny
    simp [requirePaymentRun, hUser, hDeny]

/-- C7 (witness): a 500 response under a configured upgrade URL fails
closed with reason and action URL, and the gate denies instead of running
the handler. -/
theorem C7_witness :
    checkBilling false (some cfgWithUpgrade) (FetchOutcome.httpError 500 "oops") =
      Except.ok { allowed := false, credits := none, tier := none
                  reason := some "Billing service unavailable"
                  actionUrl := some "https://myapp.com/upgrade" } ∧
    requirePaymentRun "premium-analysis" (some "https://myapp.com/upgrade")
        (PaymentRequirement.credits 10) (some "user_123")
        (Except.ok { allowed := false, credits := none, tier := none
                     reason := some "Billing service unavailable"
                     actionUrl := some "https://myapp.com/upgrade" }) (0 : Nat) =
      Except.error (requirePaymentDenial "premium-analysis" (PaymentRequirement.credits 10)
        { allowed := false, credits := none, tier := none
          reason := some "Billing service unavailable"
          actionUrl := some "https://myapp.com/upgrade" }) :=
  ⟨(C7_fail_closed cfgWithUpgrade rfl).1 500 "oops",
   (C7_fail_closed cfgWithUpgrade rfl).2.2 "premium-analysis"
     (PaymentRequirement.credits 10) (some "user_123") _ (0 : Nat) rfl rfl⟩

/-- C8: for a credits requirement and a disallowing decision, the wrapper
raises `InsufficientCreditsError` with `required` equal to the
requirement's credits, `available` equal to the decision's credits (`0`
when the decision carries none), and the decision's action URL carried as
the purchase URL in the error data. -/
theorem C8_insufficient_credits {α : Type} (toolName : String) (cfgUpgradeUrl : Option String)
    (n : Int) (status : BillingStatus) (userId : Option String) (hr : α)
    (hUser : strTruthy userId = true) (hDeny : status.allowed = false) :
    requirePaymentRun toolName cfgUpgradeUrl (.credits n) userId (Except.ok status) hr =
      Except.error (InsufficientCreditsError n (status.credits.getD 0) status.actionUrl) ∧
    (InsufficientCreditsError n (status.credits.getD 0) status.actionUrl).data =
      some ([("required", JSVal.num n), ("available", JSVal.num (status.credits.getD 0))] ++
        optStrField "purchaseUrl" status.actionUrl) ∧
    (InsufficientCreditsError n (status.credits.getD 0) status.actionUrl).code =
      ErrorCodes.INSUFFICIENT_CREDITS ∧
    (status.credits = none → status.credits.getD 0 = 0) ∧
    (∀ c : Int, status.credits = some c → status.credits.getD 0 = c) := by
  refine ⟨?_, rfl, rfl, ?_, ?_⟩
  · simp [requirePaymentRun, hUser, hDeny, requirePaymentDenial]
  · intro h
    rw [h]
    rfl
  · intro c h
    rw [h]
    rfl

/-- C8 (witness): a disallowing decision with `credits: 3` yields
`available = 3` alongside `required = 10` and the decision's action URL as
purchase URL. -/
theorem C8_witness :
    requirePaymentRun "analyze-data" none (PaymentRequirement.credits 10) (some "user_123")
        (Except.ok { allowed := false, credits := some 3, tier := none, reason := none
                     actionUrl := some "https://openconductor.ai/pricing" }) (0 : Nat) =
      Except.error (InsufficientCreditsError 10 3 (some "https://openconductor.ai/pricing")) ∧
    (InsufficientCreditsError 10 3 (some "https://openconductor.ai/pricing")).data =
      some [("required", JSVal.num 10), ("available", JSVal.num 3),
            ("purchaseUrl", JSVal.str "https://openconductor.ai/pricing")] :=
  ⟨(C8_insufficient_credits "analyze-data" none 10
      { allowed := false, credits := some 3, tier := none, reason := none
        actionUrl := some "https://openconductor.ai/pricing" }
      (some "user_123") (0 : Nat) rfl rfl).1,
   (C8_insufficient_credits "analyze-data" none 10
      { allowed := false, credits := some 3, tier := none, reason := none
        actionUrl := some "https://openconductor.ai/pricing" }
      (some "user_123") (0 : Nat) rfl rfl).2.1⟩

/-- C9: the logged input snapshot replaces the value of every top-level
key whose name contains (case-insensitively) one of the sensitive
substrings with `"[REDACTED]"`, leaves every other top-level entry
unchanged, does not recurse into nested objects, and returns non-object
inputs unchanged; in particular
`{token: "abc", nested: {password: "x"}}` redacts `token` but leaves
`nested.password` as-is. -/
theorem C9_shallow_redaction :
    (∀ (fields : List (String × JSVal)) (k : String) (v : JSVal), (k, v) ∈ fields →
      (isSensitiveKey k = true →
        (k, JSVal.str "[REDACTED]") ∈ sanitizedFields fields) ∧
      (isSensitiveKey k = false → (k, v) ∈ sanitizedFields fields)) ∧
    (∀ fields, sanitizeInput (JSVal.obj fields) = JSVal.obj (sanitizedFields fields)) ∧
    (∀ s, sanitizeInput (JSVal.str s) = JSVal.str s) ∧
    (∀ n, sanitizeInput (JSVal.num n) = JSVal.num n) ∧
    (∀ b, sanitizeInput (JSVal.bool b) = JSVal.bool b) ∧
    sanitizeInput JSVal.null = JSVal.null ∧
    sanitizeInput (JSVal.obj [("token", JSVal.str "abc"),
        ("nested", JSVal.obj [("password", JSVal.str "x")])]) =
      JSVal.obj [("token", JSVal.str "[REDACTED]"),
        ("nested", JSVal.obj [("password", JSVal.str "x")])] := by
  refine ⟨?_, fun _ => rfl, fun _ => rfl, fun _ => rfl, fun _ => rfl, rfl, rfl⟩
  intro fields k v hmem
  constructor
  · intro hs
    have hred : redactPair (k, v) = (k, JSVal.str "[REDACTED]") := by
      simp [redactPair, hs]
    exact hred ▸ List.mem_map_of_mem redactPair hmem
  · intro hs
    have hred : redactPair (k, v) = (k, v) := by
      simp [redactPair, hs]
    exact hred ▸ List.mem_map_of_mem redactPair hmem

/-- C9 (witness): the membership clauses of `C9_shallow_redaction`
evaluated on concrete entries — a sensitive key is redacted, a
non-sensitive one is kept. -/
theorem C9_witness :
    ("token", JSVal.str "[REDACTED]") ∈
      sanitizedFields [("token", JSVal.str "abc"), ("limit", JSVal.num 10)] ∧
    ("limit", JSVal.num 10) ∈
      sanitizedFields [("token", JSVal.str "abc"), ("limit", JSVal.num 10)] :=
  ⟨(C9_shallow_redaction.1 [("token", JSVal.str "abc"), ("limit", JSVal.num 10)]
      "token" (JSVal.str "abc") (List.Mem.head _)).1 rfl,
   (C9_shallow_redaction.1 [("token", JSVal.str "abc"), ("limit", JSVal.num 10)]
      "limit" (JSVal.num 10) (List.Mem.tail _ (List.Mem.head _))).2 rfl⟩

/-- Specification of the health-check loop: it records every check in
order (a throwing check records `false`) and reports whether all passed. -/
theorem runHealthChecks_eq (l : List (String × CheckOutcome)) :
    runHealthChecks l =
      (l.map (fun e => (e.1, checkResult e.2)), l.all (fun e => checkResult e.2)) := by
  induction l with
  | nil => rfl
  | cons e rest ih =>
    obtain ⟨n, c⟩ := e
    simp [runHealthChecks, ih, List.all_cons]

/-- C10: the response status is `healthy` exactly when every configured
check returned `true` without throwing, and `degraded` otherwise; the
declared status `unhealthy` is never produced; and every check is
recorded with its result — a throwing check records `false` without
preventing the remaining checks from being recorded. -/
theorem C10_health_status (l : List (String × CheckOutcome)) :
    ((createHealthCheckRun l).1 = HealthStatus.healthy ↔
      l.all (fun e => checkResult e.2) = true) ∧
    ((createHealthCheckRun l).1 = HealthStatus.degraded ↔
      l.all (fun e => checkResult e.2) = false) ∧
    (createHealthCheckRun l).1 ≠ HealthStatus.unhealthy ∧
    (createHealthCheckRun l).2 = l.map (fun e => (e.1, checkResult e.2)) ∧
    ((createHealthCheckRun l).2).map Prod.fst = l.map Prod.fst := by
  have hrun : createHealthCheckRun l =
      ((if l.all (fun e => checkResult e.2) then HealthStatus.healthy
        else HealthStatus.degraded),
       l.map (fun e => (e.1, checkResult e.2))) := by
    unfold createHealthCheckRun
    rw [runHealthChecks_eq]
  rw [hrun]
  cases h : l.all (fun e => checkResult e.2) with
  | true =>
    refine ⟨by simp, by simp, by simp, rfl, ?_⟩
    simp [List.map_map]
  | false =>
    refine ⟨by simp, by simp, by simp, rfl, ?_⟩
    simp [List.map_map]

/-- C10 (witness): a passing check plus a throwing check produce a
`degraded` status with both checks recorded; a single passing check
produces `healthy`. -/
theorem C10_witness :
    (createHealthCheckRun [("database", CheckOutcome.ok true)]).1 = HealthStatus.healthy ∧
    (createHealthCheckRun [("database", CheckOutcome.ok true),
        ("cache", CheckOutcome.throws)]).2 = [("database", true), ("cache", false)] ∧
    (createHealthCheckRun [("database", CheckOutcome.ok true),
        ("cache", CheckOutcome.throws)]).1 ≠ HealthStatus.unhealthy :=
  ⟨(C10_health_status [("database", CheckOutcome.ok true)]).1.mpr rfl,
   (C10_health_status [("database", CheckOutcome.ok true),
      ("cache", CheckOutcome.throws)]).2.2.2.1,
   (C10_health_status [("database", CheckOutcome.ok true),
      ("cache", CheckOutcome.throws)]).2.2.1⟩

end MCPSDK
